import Mathlib

/-!
Verification of the vanilla-bottom-sheet drag controller and scroll lock.

The drag controller (BottomSheet component) is embedded with pixel
quantities as rationals; DOM style mutations are modelled as returned
values (rendered heights, effect records). The scroll lock
(use-prevent-scroll.ts) is embedded as a state machine over an explicit
state record; its touch handlers are pure functions from handler state
and event data to updated state plus a preventDefault flag.
-/

namespace BottomSheet

/-- Inclusive range test, from `between` in the component source:
`value >= min && value <= max`. -/
def between (min max value : ℚ) : Bool :=
  decide (value ≥ min) && decide (value ≤ max)

/-- The 24px minimum sheet height, `MIN_BS_HEIGHT`. -/
def MIN_BS_HEIGHT : ℚ := 24

/-- `withMinHeightLimit`: `Math.max(MIN_BS_HEIGHT, val)`. -/
def withMinHeightLimit (val : ℚ) : ℚ := max MIN_BS_HEIGHT val

/-- The `DragRef` record: `last`, `drag`, `from` (drag-gesture state). -/
structure DragRef where
  last : ℚ
  drag : ℚ
  fromY : ℚ
deriving DecidableEq, Repr

/-- Component state relevant to the pointer handlers: the `isDragging`
flag, the committed `blockHeight`, and the mutable drag ref. -/
structure SheetState where
  isDragging : Bool
  blockHeight : ℚ
  dragState : DragRef
deriving DecidableEq, Repr

/-- `updateDragState`: `deltaY = last - to; last = to; drag -= deltaY`. -/
def updateDragState (s : DragRef) (toY : ℚ) : DragRef :=
  let deltaY := s.last - toY
  { s with last := toY, drag := s.drag - deltaY }

/-- `animateTo`: computes the snap target from the viewport height `wH`,
the committed `blockHeight` and the drag state, exactly as the source:
`up = from - last > 0`, `isTop = between(wH*0.45, wH*0.9, blockHeight - drag)`,
`isMiddle = between(wH*0.05, wH*0.45, blockHeight - drag)`, then the
four-branch if chain. -/
def animateTo (wH blockHeight : ℚ) (s : DragRef) : ℚ :=
  let up := decide (s.fromY - s.last > 0)
  let isTop := between (wH * (45/100)) (wH * (9/10)) (blockHeight - s.drag)
  let isMiddle := between (wH * (5/100)) (wH * (45/100)) (blockHeight - s.drag)
  if isMiddle && up then wH * (1/2)
  else if isTop && up then wH * (9/10)
  else if isTop && !up then wH * (1/2)
  else 0

/-- `handleOnMove`: no-op returning no rendered height when not dragging;
otherwise updates the drag state from the pointer coordinate and renders
`withMinHeightLimit (blockHeight - drag)`. -/
def handleOnMove (st : SheetState) (pointerY : ℚ) : SheetState × Option ℚ :=
  if !st.isDragging then (st, none)
  else
    let s := updateDragState st.dragState pointerY
    ({ st with dragState := s },
     some (withMinHeightLimit (st.blockHeight - s.drag)))

/-- `handleMouseDown`: records `from = last = pointerY` and sets dragging. -/
def handleMouseDown (st : SheetState) (pointerY : ℚ) : SheetState :=
  { st with
    isDragging := true,
    dragState := { st.dragState with fromY := pointerY, last := pointerY } }

/-- `handleMouseUp`: clears the dragging flag, computes the snap target,
renders and commits `withMinHeightLimit target`, and resets `drag = 0`.
The source reads no dragging flag here: the handler runs on every
pointerup. Returns the new state and the rendered height. -/
def handleMouseUp (wH : ℚ) (st : SheetState) : SheetState × ℚ :=
  let target := animateTo wH st.blockHeight st.dragState
  ({ isDragging := false,
     blockHeight := withMinHeightLimit target,
     dragState := { st.dragState with drag := 0 } },
   withMinHeightLimit target)

/-- Runs a sequence of pointer-move events through `handleOnMove`,
collecting after each event the state reached and the rendered height
(if any). -/
def runMoves (st : SheetState) : List ℚ → List (SheetState × Option ℚ)
  | [] => []
  | y :: ys =>
    let r := handleOnMove st y
    r :: runMoves r.1 ys

/-- Middle snap zone exactly as the source tests it:
`between(wH*0.05, wH*0.45, h)` (both bounds inclusive). -/
def inMiddleZone (wH h : ℚ) : Prop :=
  wH * (5/100) ≤ h ∧ h ≤ wH * (45/100)

/-- Top snap zone exactly as the source tests it:
`between(wH*0.45, wH*0.9, h)` (both bounds inclusive). -/
def inTopZone (wH h : ℚ) : Prop :=
  wH * (45/100) ≤ h ∧ h ≤ wH * (9/10)

instance (wH h : ℚ) : Decidable (inMiddleZone wH h) := by
  unfold inMiddleZone; infer_instance

instance (wH h : ℚ) : Decidable (inTopZone wH h) := by
  unfold inTopZone; infer_instance

/-- The snap case table as the specification words it: candidate height
`h = blockHeight - drag`, direction `up = from - last > 0`; middle zone
and up gives `0.5*wH`; else top zone and up gives `0.9*wH`; else top
zone and not up gives `0.5*wH`; else `0`. The middle-zone test comes
before the top-zone test. -/
def snapTargetSpec (wH blockHeight : ℚ) (s : DragRef) : ℚ :=
  let h := blockHeight - s.drag
  if inMiddleZone wH h ∧ s.fromY - s.last > 0 then wH * (1/2)
  else if inTopZone wH h ∧ s.fromY - s.last > 0 then wH * (9/10)
  else if inTopZone wH h ∧ ¬(s.fromY - s.last > 0) then wH * (1/2)
  else 0

end BottomSheet

namespace BottomSheet

/-- Shared helper: the source's `animateTo` agrees with the propositional
case table `snapTargetSpec` on all inputs. -/
theorem animateTo_cases (wH blockHeight : ℚ) (s : DragRef) :
    animateTo wH blockHeight s = snapTargetSpec wH blockHeight s := by
  unfold animateTo snapTargetSpec between inMiddleZone inTopZone
  by_cases hup : s.fromY - s.last > 0 <;>
  by_cases h1 : wH * (5/100) ≤ blockHeight - s.drag <;>
  by_cases h2 : blockHeight - s.drag ≤ wH * (45/100) <;>
  by_cases h3 : wH * (45/100) ≤ blockHeight - s.drag <;>
  by_cases h4 : blockHeight - s.drag ≤ wH * (9/10) <;>
  simp [hup, h1, h2, h3, h4, ge_iff_le]

/-- C1: the snap algorithm realizes exactly the ordered case table of the
specification — `0.5*wH` when the candidate height is in the middle zone
and the gesture is upward; else `0.9*wH` when in the top zone and upward;
else `0.5*wH` when in the top zone and downward; else `0` — with the
middle-zone test performed before the top-zone test, for every
`blockHeight`, `drag`, `from`, `last` and `wH`. -/
theorem animateTo_eq_snapTargetSpec (wH blockHeight : ℚ) (s : DragRef) :
    animateTo wH blockHeight s = snapTargetSpec wH blockHeight s :=
  animateTo_cases wH blockHeight s

/-- C2: releasing a drag commits `blockHeight` to exactly one of the
three values 24 (= max(24,0)), max(24, 0.5*wH) or max(24, 0.9*wH), for
every starting state and viewport height — never an intermediate value. -/
theorem handleMouseUp_commits_detent (wH : ℚ) (st : SheetState) :
    (handleMouseUp wH st).1.blockHeight = 24 ∨
    (handleMouseUp wH st).1.blockHeight = max 24 (wH * (1/2)) ∨
    (handleMouseUp wH st).1.blockHeight = max 24 (wH * (9/10)) := by
  unfold handleMouseUp animateTo withMinHeightLimit MIN_BS_HEIGHT
  dsimp only
  split
  · right; left; rfl
  · split
    · right; right; rfl
    · split
      · right; left; rfl
      · left; simp [max_eq_left]

/-- C3: during an active drag, a pointer-move at coordinate `pointerY`
updates the drag state by `deltaY = last - pointerY`, then
`last := pointerY` and `drag := drag - deltaY`, and renders
`max(24, blockHeight - drag)`; when not dragging the handler changes
nothing; and along any pointer-move sequence of an active drag, every
rendered height equals `max(24, blockHeight - drag)` for the drag state
at that step. -/
theorem handleOnMove_tracks_height (st : SheetState) (pointerY : ℚ)
    (ys : List ℚ) :
    (st.isDragging = false → handleOnMove st pointerY = (st, none)) ∧
    (st.isDragging = true →
      handleOnMove st pointerY =
        ({ st with dragState :=
            { st.dragState with
              last := pointerY,
              drag := st.dragState.drag - (st.dragState.last - pointerY) } },
         some (withMinHeightLimit
           (st.blockHeight -
             (st.dragState.drag - (st.dragState.last - pointerY)))))) ∧
    (st.isDragging = true →
      ∀ p ∈ runMoves st ys,
        p.2 = some (withMinHeightLimit (st.blockHeight - p.1.dragState.drag))) := by
  refine ⟨fun h => ?_, fun h => ?_, fun h => ?_⟩
  · simp [handleOnMove, h]
  · simp [handleOnMove, h, updateDragState]
  · induction ys generalizing st with
    | nil => intro p hp; simp [runMoves] at hp
    | cons y ys ih =>
      intro p hp
      simp only [runMoves] at hp
      rcases List.mem_cons.mp hp with hp | hp
      · subst hp
        simp [handleOnMove, h, updateDragState]
      · have hdrag : (handleOnMove st y).1.isDragging = true := by
          simp [handleOnMove, h]
        have hbh : (handleOnMove st y).1.blockHeight = st.blockHeight := by
          simp [handleOnMove, h]
        have hrec := ih (handleOnMove st y).1 hdrag p hp
        rwa [hbh] at hrec

/-- Witness for C3 at a concrete move sequence: starting a drag at
`blockHeight = 100` with zeroed drag state, the single move to
`pointerY = 30` accumulates `drag = 30` and renders
`max(24, 100 - 30) = 70`. -/
theorem handleOnMove_tracks_height_witness :
    some (70 : ℚ) = some (withMinHeightLimit (100 - 30)) := by
  have h := (handleOnMove_tracks_height ⟨true, 100, ⟨0, 0, 0⟩⟩ 0 [30]).2.2 rfl
  have hm : (⟨⟨true, 100, ⟨30, 30, 0⟩⟩, some 70⟩ : SheetState × Option ℚ) ∈
      runMoves ⟨true, 100, ⟨0, 0, 0⟩⟩ [30] := by
    simp only [runMoves, handleOnMove, updateDragState, withMinHeightLimit,
      MIN_BS_HEIGHT, List.mem_singleton]
    norm_num
  simpa using h _ hm

/-- C4 counterexample: with `wH = 1000` and candidate height exactly
`0.9 * wH = 900` (drag 0, upward gesture `from = 500 > last = 300`), the
source's inclusive `between` places the release inside the top zone and
the snap target is `900`, not `0` — refuting the claim that `h = 0.9*wH`
lies in neither zone and snaps to `0`. -/
theorem animateTo_boundary_counterexample :
    between (1000 * (45/100)) (1000 * (9/10)) 900 = true ∧
    animateTo 1000 900 ⟨300, 0, 500⟩ = 900 ∧
    animateTo 1000 900 ⟨300, 0, 500⟩ ≠ 0 := by
  refine ⟨?_, ?_, ?_⟩
  · simp only [between, Bool.and_eq_true, decide_eq_true_eq, ge_iff_le]
    norm_num
  · rw [animateTo_cases]
    unfold snapTargetSpec inTopZone inMiddleZone
    norm_num
  · rw [animateTo_cases]
    unfold snapTargetSpec inTopZone inMiddleZone
    norm_num

/-- C4 amended: the snap zones are closed intervals (both bounds
inclusive) — middle `[0.05*wH, 0.45*wH]`, top `[0.45*wH, 0.9*wH]` — so a
release with candidate height exactly `0.9*wH` lies in the top zone and
snaps to `0.9*wH` on an upward gesture and to `0.5*wH` on a downward
one; at exactly `0.45*wH` both zone tests hold and the middle-zone
check, executing first, decides an upward release to `0.5*wH` (a
downward one also yields `0.5*wH`, via the top-zone branch). -/
theorem animateTo_boundary_closed (wH blockHeight : ℚ) (s : DragRef)
    (hpos : 0 < wH) :
    (blockHeight - s.drag = wH * (9/10) →
      inTopZone wH (blockHeight - s.drag) ∧
      animateTo wH blockHeight s =
        (if s.fromY - s.last > 0 then wH * (9/10) else wH * (1/2))) ∧
    (blockHeight - s.drag = wH * (45/100) →
      inMiddleZone wH (blockHeight - s.drag) ∧
      inTopZone wH (blockHeight - s.drag) ∧
      animateTo wH blockHeight s = wH * (1/2)) := by
  constructor
  · intro h
    have hz : inTopZone wH (blockHeight - s.drag) := by
      rw [h]; constructor <;> nlinarith
    have hnm : ¬ (blockHeight - s.drag ≤ wH * (45/100)) := by
      rw [h]; nlinarith
    refine ⟨hz, ?_⟩
    rw [animateTo_cases]
    unfold snapTargetSpec
    by_cases hup : s.fromY - s.last > 0 <;>
      simp [hz, hnm, hup, inMiddleZone]
  · intro h
    have hm : inMiddleZone wH (blockHeight - s.drag) := by
      rw [h]; constructor <;> nlinarith
    have ht : inTopZone wH (blockHeight - s.drag) := by
      rw [h]; constructor <;> nlinarith
    refine ⟨hm, ht, ?_⟩
    rw [animateTo_cases]
    unfold snapTargetSpec
    by_cases hup : s.fromY - s.last > 0 <;> simp [hm, ht, hup]

/-- Witness for the amended C4 at `wH = 1000`: an upward release at
exactly `900` snaps to `900`, and a release at exactly `450` snaps to
`500`. -/
theorem animateTo_boundary_closed_witness :
    animateTo 1000 900 ⟨300, 0, 500⟩ = 900 ∧
    animateTo 1000 450 ⟨300, 0, 500⟩ = 500 := by
  constructor
  · have h := (animateTo_boundary_closed 1000 900 ⟨300, 0, 500⟩
      (by norm_num)).1 (by norm_num)
    rw [h.2]; norm_num
  · have h := (animateTo_boundary_closed 1000 450 ⟨300, 0, 500⟩
      (by norm_num)).2 (by norm_num)
    rw [h.2.2]; norm_num

/-- C10: the pointer-up handler reads no dragging flag — its result is
independent of `isDragging` — so a stray pointerup with `drag = 0` and
`from = last` (direction not upward) while the sheet rests strictly
inside the middle zone (`0.05*wH ≤ blockHeight < 0.45*wH`) commits
`blockHeight` to `24`, collapsing the sheet. -/
theorem handleMouseUp_no_guard_collapse (wH : ℚ) (st : SheetState) :
    (∀ b : Bool, handleMouseUp wH { st with isDragging := b } =
      handleMouseUp wH st) ∧
    (st.dragState.drag = 0 → st.dragState.fromY = st.dragState.last →
      wH * (5/100) ≤ st.blockHeight → st.blockHeight < wH * (45/100) →
      (handleMouseUp wH st).1.blockHeight = 24) := by
  constructor
  · intro b; rfl
  · intro hd hf h1 h2
    have hn : ¬ (st.dragState.fromY - st.dragState.last > 0) := by
      rw [hf]; simp
    have hnt : ¬ inTopZone wH (st.blockHeight - st.dragState.drag) := by
      rw [hd, sub_zero]
      intro ht
      exact absurd ht.1 (not_le.mpr h2)
    unfold handleMouseUp
    rw [animateTo_cases]
    unfold snapTargetSpec
    simp only [hn, hnt, and_false, false_and, if_false, ite_false]
    simp [withMinHeightLimit, MIN_BS_HEIGHT]

/-- Witness for C10: at `wH = 1000`, a sheet resting at `blockHeight =
200` (middle zone) with zeroed drag state commits to `24` on a stray
pointerup. -/
theorem handleMouseUp_no_guard_collapse_witness :
    (handleMouseUp 1000 ⟨false, 200, ⟨440, 0, 440⟩⟩).1.blockHeight = 24 :=
  (handleMouseUp_no_guard_collapse 1000 ⟨false, 200, ⟨440, 0, 440⟩⟩).2
    rfl rfl (by norm_num) (by norm_num)

end BottomSheet

namespace PreventScroll

/-- The two platform strategies selected at activation in
`usePreventScroll`: `safariMobilePreventScroll` when `isIOS()` holds,
`standardPreventScroll` otherwise. -/
inductive Strategy where
  | standard
  | safariMobile
deriving DecidableEq, Repr

/-- The module-level scroll-lock state: the activation counter
`preventScrollCount`, the stored `restore` closure (tagged with a
generation id and the strategy that produced it; `none` embeds the
uninitialized `let restore`), a fresh-id counter, and the log of restore
closures that have been invoked, in order. -/
structure LockState where
  count : Int
  stored : Option Nat
  storedStrategy : Option Strategy
  nextId : Nat
  runs : List Nat
deriving DecidableEq, Repr

/-- The state before any `usePreventScroll` effect has run. -/
def initLock : LockState := ⟨0, none, none, 0, []⟩

/-- `if (isIOS()) restore = safariMobilePreventScroll() else restore =
standardPreventScroll()`. -/
def chooseStrategy (ios : Bool) : Strategy :=
  if ios then Strategy.safariMobile else Strategy.standard

/-- The effect body of `usePreventScroll` when not disabled:
`preventScrollCount++; if (preventScrollCount === 1) restore = ...`,
choosing the strategy from the platform flag `ios`. -/
def activate (ios : Bool) (s : LockState) : LockState :=
  let count := s.count + 1
  if count = 1 then
    { count := count, stored := some s.nextId,
      storedStrategy := some (chooseStrategy ios),
      nextId := s.nextId + 1, runs := s.runs }
  else { s with count := count }

/-- The effect cleanup of `usePreventScroll`:
`preventScrollCount--; if (preventScrollCount === 0) restore()`. The
source never clears `restore` after invoking it. -/
def deactivate (s : LockState) : LockState :=
  let count := s.count - 1
  if count = 0 then { s with count := count, runs := s.runs ++ s.stored.toList }
  else { s with count := count }

/-- Identity of the DOM elements a recorded scrollable ancestor can
resolve to: the `document.documentElement`, the `document.body`, or any
other element (numbered). -/
inductive ElemId where
  | docElement
  | body
  | elem (n : Nat)
deriving DecidableEq, Repr

/-- A scrollable-ancestor element as the touch handlers read it:
identity plus the `scrollTop`, `scrollHeight` and `clientHeight`
measurements. -/
structure ScrollElem where
  eid : ElemId
  scrollTop : ℚ
  scrollHeight : ℚ
  clientHeight : ℚ
deriving DecidableEq, Repr

/-- The closure state of `safariMobilePreventScroll`: the recorded
`scrollable` ancestor (`none` embeds the uninitialized `let scrollable`)
and `lastY`. -/
structure TouchState where
  scrollable : Option ScrollElem
  lastY : ℚ
deriving DecidableEq, Repr

/-- The handler state at strategy activation: `scrollable` undefined,
`lastY = 0`. -/
def initTouch : TouchState := ⟨none, 0⟩

/-- `onTouchStart`: records the resolved scrollable ancestor; the early
return requires it to be `document.documentElement` AND `document.body`
at once (the source tests both with `&&`); otherwise records
`lastY = e.changedTouches[0].pageY`. -/
def onTouchStart (st : TouchState) (scrollParent : ScrollElem) (pageY : ℚ) :
    TouchState :=
  let st := { st with scrollable := some scrollParent }
  if scrollParent.eid = ElemId.docElement ∧ scrollParent.eid = ElemId.body then
    st
  else { st with lastY := pageY }

/-- `onTouchMove`: returns the updated handler state and whether
`e.preventDefault()` was called. Prevents outright when no scrollable
ancestor was recorded or it is the `documentElement` or `body`; returns
without preventing (and without updating `lastY`) when the ancestor has
no overflow distance; otherwise prevents exactly at the scroll
extremities and updates `lastY`. -/
def onTouchMove (st : TouchState) (y : ℚ) : TouchState × Bool :=
  match st.scrollable with
  | none => (st, true)
  | some sc =>
    if sc.eid = ElemId.docElement ∨ sc.eid = ElemId.body then (st, true)
    else
      let scrollTop := sc.scrollTop
      let bottom := sc.scrollHeight - sc.clientHeight
      if bottom = 0 then (st, false)
      else
        ({ st with lastY := y },
         decide ((scrollTop ≤ 0 ∧ y > st.lastY) ∨
           (scrollTop ≥ bottom ∧ y < st.lastY)))

/-- `NON_TEXT_INPUT_TYPES`: the input types that do not raise the
software keyboard. -/
def nonTextInputTypes : List String :=
  ["checkbox", "radio", "range", "color", "file", "image", "button",
   "submit", "reset"]

/-- A touch-end target as `isInput` inspects it: which DOM interfaces it
implements, its input `type`, and its `isContentEditable` flag. -/
structure TargetElem where
  isHTMLInput : Bool
  inputType : String
  isTextArea : Bool
  isHTMLElement : Bool
  isContentEditable : Bool
deriving DecidableEq, Repr

/-- `isInput`: an `HTMLInputElement` whose `type` is not in
`NON_TEXT_INPUT_TYPES`, or an `HTMLTextAreaElement`, or an `HTMLElement`
with `isContentEditable`. -/
def isInput (t : TargetElem) : Bool :=
  (t.isHTMLInput && !(nonTextInputTypes.contains t.inputType)) ||
  t.isTextArea ||
  (t.isHTMLElement && t.isContentEditable)

/-- The observable effects of one `onTouchEnd` call: whether default was
prevented, the transform value applied to the target (if any), whether
`target.focus()` was called, and whether a clear of the transform was
scheduled for the next animation frame. -/
structure TouchEndEffects where
  prevented : Bool
  transformApplied : Option String
  focusCalled : Bool
  clearScheduled : Bool
deriving DecidableEq, Repr

/-- The no-effect result of `onTouchEnd`. -/
def noTouchEndEffects : TouchEndEffects := ⟨false, none, false, false⟩

/-- `onTouchEnd`: when the target `isInput` and is not
`document.activeElement` (the `isActive` flag), prevents default,
applies `translateY(-2000px)`, focuses the target, and schedules the
transform clear on the next animation frame; otherwise does nothing. -/
def onTouchEnd (t : TargetElem) (isActive : Bool) : TouchEndEffects :=
  if isInput t && !isActive then
    ⟨true, some "translateY(-2000px)", true, true⟩
  else noTouchEndEffects

/-- C5: for the process-wide activation counter, activating twice and
deactivating once leaves the counter at 1 with the first activator's
strategy still stored and no restore run; a second deactivation brings
the counter to 0 and the stored restore runs exactly once in total; the
strategy is chosen only at the 0-to-1 transition, and the intermediate
counter value 2 neither changes the stored strategy nor runs any
restore. -/
theorem lock_refcount_episode (p q : Bool) :
    (activate q (activate p initLock)).count = 2 ∧
    (activate q (activate p initLock)).storedStrategy =
      some (chooseStrategy p) ∧
    (activate q (activate p initLock)).runs = [] ∧
    (deactivate (activate q (activate p initLock))).count = 1 ∧
    (deactivate (activate q (activate p initLock))).storedStrategy =
      some (chooseStrategy p) ∧
    (deactivate (activate q (activate p initLock))).runs = [] ∧
    (deactivate (deactivate (activate q (activate p initLock)))).count = 0 ∧
    (deactivate (deactivate (activate q (activate p initLock)))).runs = [0] := by
  cases p <;> cases q <;> decide

/-- C6 counterexample: after one activation and one full deactivation
(counter back to 0, the restore having run), the stored restore closure
is still present — the source never clears `restore` — refuting the
claim that no restore closure remains stored after full deactivation. -/
theorem restore_not_cleared_counterexample :
    (deactivate (activate true initLock)).count = 0 ∧
    (deactivate (activate true initLock)).runs = [0] ∧
    (deactivate (activate true initLock)).stored ≠ none := by
  decide

/-- C6 amended: the stored restore closure is assigned exactly when the
counter transitions 0 to 1 and invoked exactly when it transitions 1 to
0, but it is never cleared: deactivation leaves the stored closure in
place, so after full deactivation the stale closure remains stored
(until overwritten at the next 0-to-1 transition). -/
theorem restore_lifecycle (s : LockState) (p : Bool) :
    (s.count = 0 → (activate p s).stored = some s.nextId ∧
      (activate p s).storedStrategy = some (chooseStrategy p)) ∧
    (s.count ≠ 0 → (activate p s).stored = s.stored ∧
      (activate p s).storedStrategy = s.storedStrategy) ∧
    ((activate p s).runs = s.runs) ∧
    ((deactivate s).stored = s.stored) ∧
    (s.count = 1 → (deactivate s).runs = s.runs ++ s.stored.toList) ∧
    (s.count ≠ 1 → (deactivate s).runs = s.runs) := by
  refine ⟨fun h => ?_, fun h => ?_, ?_, ?_, fun h => ?_, fun h => ?_⟩
  · simp [activate, h]
  · have hne : ¬ (s.count + 1 = 1) := by omega
    simp [activate, hne]
  · by_cases hc : s.count + 1 = 1 <;> simp [activate, hc]
  · by_cases hc : s.count - 1 = 0 <;> simp [deactivate, hc]
  · have heq : s.count - 1 = 0 := by omega
    simp [deactivate, heq]
  · have hne : ¬ (s.count - 1 = 0) := by omega
    simp [deactivate, hne]

/-- Witness for the amended C6: the first activation from the initial
state stores closure 0, and deactivating from counter 1 appends exactly
that stored closure to the run log. -/
theorem restore_lifecycle_witness :
    (activate true initLock).stored = some 0 ∧
    (deactivate (activate true initLock)).runs =
      (activate true initLock).runs ++ (activate true initLock).stored.toList := by
  refine ⟨((restore_lifecycle initLock true).1 rfl).1, ?_⟩
  exact (restore_lifecycle (activate true initLock) true).2.2.2.2.1 (by decide)

/-- C7: while the touch strategy is active, a touch-move with no
recorded scrollable ancestor, or whose ancestor is the document root
(`documentElement` or `body`), always has its default prevented; one
whose recorded nested ancestor sits strictly between its scroll
extremities is never prevented; and a nested ancestor whose
`scrollHeight` equals its `clientHeight` is never prevented. -/
theorem onTouchMove_prevention (st : TouchState) (y : ℚ) :
    (st.scrollable = none → (onTouchMove st y).2 = true) ∧
    (∀ sc, st.scrollable = some sc →
      sc.eid = ElemId.docElement ∨ sc.eid = ElemId.body →
      (onTouchMove st y).2 = true) ∧
    (∀ sc, st.scrollable = some sc →
      sc.eid ≠ ElemId.docElement → sc.eid ≠ ElemId.body →
      0 < sc.scrollTop → sc.scrollTop < sc.scrollHeight - sc.clientHeight →
      (onTouchMove st y).2 = false) ∧
    (∀ sc, st.scrollable = some sc →
      sc.eid ≠ ElemId.docElement → sc.eid ≠ ElemId.body →
      sc.scrollHeight = sc.clientHeight →
      (onTouchMove st y).2 = false) := by
  refine ⟨fun h => ?_, fun sc hsc hor => ?_, fun sc hsc h1 h2 h3 h4 => ?_,
    fun sc hsc h1 h2 heq => ?_⟩
  · simp [onTouchMove, h]
  · simp [onTouchMove, hsc, hor]
  · have hb : sc.scrollHeight - sc.clientHeight ≠ 0 := by
      intro hb; rw [hb] at h4; linarith
    simp only [onTouchMove, hsc]
    rw [if_neg (by simp [h1, h2]), if_neg hb]
    simp only [decide_eq_false_iff_not]
    rintro (⟨ha, _⟩ | ⟨hc, _⟩)
    · linarith
    · linarith
  · simp only [onTouchMove, hsc]
    rw [if_neg (by simp [h1, h2]), if_pos (by rw [heq]; ring)]

/-- Witness for C7: with no recorded ancestor the move is prevented, and
on a nested element with `scrollTop = 5` strictly between 0 and its
overflow distance 50 it is not. -/
theorem onTouchMove_prevention_witness :
    (onTouchMove ⟨none, 0⟩ 3).2 = true ∧
    (onTouchMove ⟨some ⟨ElemId.elem 0, 5, 100, 50⟩, 0⟩ 3).2 = false := by
  constructor
  · exact (onTouchMove_prevention ⟨none, 0⟩ 3).1 rfl
  · exact (onTouchMove_prevention ⟨some ⟨ElemId.elem 0, 5, 100, 50⟩, 0⟩ 3).2.2.1
      ⟨ElemId.elem 0, 5, 100, 50⟩ rfl (by decide) (by decide)
      (by norm_num) (by norm_num)

/-- C8: a touch-end whose target is a text-accepting input (an input
whose type is none of checkbox, radio, range, color, file, image,
button, submit, reset; a textarea; or a content-editable element) and is
not the active element has its default prevented, gets the
`translateY(-2000px)` transform, is focused, and has the transform clear
scheduled for the next frame; an already-focused target, or one that is
not text-accepting, triggers none of these effects. -/
theorem onTouchEnd_focus_workaround (t : TargetElem) (isActive : Bool) :
    (isInput t = true ↔
      (t.isHTMLInput = true ∧ t.inputType ∉ nonTextInputTypes) ∨
      t.isTextArea = true ∨
      (t.isHTMLElement = true ∧ t.isContentEditable = true)) ∧
    (isInput t = true → isActive = false →
      onTouchEnd t isActive = ⟨true, some "translateY(-2000px)", true, true⟩) ∧
    (isActive = true → onTouchEnd t isActive = noTouchEndEffects) ∧
    (isInput t = false → onTouchEnd t isActive = noTouchEndEffects) := by
  refine ⟨?_, fun h1 h2 => ?_, fun h => ?_, fun h => ?_⟩
  · simp only [isInput, Bool.or_eq_true, Bool.and_eq_true,
      Bool.not_eq_true', List.contains, List.elem_eq_mem,
      decide_eq_false_iff_not]
    tauto
  · simp [onTouchEnd, h1, h2]
  · simp [onTouchEnd, h]
  · simp [onTouchEnd, h]

/-- Witness for C8: an unfocused plain text input gets the full
workaround; the same input already focused gets nothing. -/
theorem onTouchEnd_focus_workaround_witness :
    onTouchEnd ⟨true, "text", false, true, false⟩ false =
      ⟨true, some "translateY(-2000px)", true, true⟩ ∧
    onTouchEnd ⟨true, "text", false, true, false⟩ true = noTouchEndEffects := by
  constructor
  · exact (onTouchEnd_focus_workaround ⟨true, "text", false, true, false⟩
      false).2.1 (by decide) rfl
  · exact (onTouchEnd_focus_workaround ⟨true, "text", false, true, false⟩
      true).2.2.1 rfl

/-- C9 counterexample: with the resolved scrollable ancestor equal to the
document root (`documentElement`), touch-start does not skip tracking —
`lastY` is recorded, because the skip guard requires the ancestor to be
the `documentElement` and the `body` at once — and the subsequent
touch-move has its default prevented, refuting both halves of the
claim. -/
theorem touchStart_root_counterexample :
    (onTouchStart initTouch ⟨ElemId.docElement, 0, 800, 800⟩ 37).lastY = 37 ∧
    (onTouchMove
      (onTouchStart initTouch ⟨ElemId.docElement, 0, 800, 800⟩ 37) 50).2 =
      true := by
  decide

/-- C9 amended: the touch-start skip guard tests that the resolved
ancestor is simultaneously the `documentElement` and the `body`, which
never holds, so `lastY` tracking always proceeds; and when the resolved
ancestor is the document root, every touch-move of the sequence has its
default prevented by the root branch of `onTouchMove`. -/
theorem touchStart_always_tracks (st : TouchState) (e : ScrollElem)
    (pageY : ℚ) :
    ¬ (e.eid = ElemId.docElement ∧ e.eid = ElemId.body) ∧
    (onTouchStart st e pageY).scrollable = some e ∧
    (onTouchStart st e pageY).lastY = pageY ∧
    (e.eid = ElemId.docElement ∨ e.eid = ElemId.body →
      ∀ y, (onTouchMove (onTouchStart st e pageY) y).2 = true) := by
  have hne : ¬ (e.eid = ElemId.docElement ∧ e.eid = ElemId.body) := by
    rintro ⟨h1, h2⟩
    rw [h1] at h2
    exact ElemId.noConfusion h2
  have hst : onTouchStart st e pageY = ⟨some e, pageY⟩ := by
    unfold onTouchStart
    rw [if_neg hne]
  refine ⟨hne, by rw [hst], by rw [hst], fun hor y => ?_⟩
  rw [hst]
  simp [onTouchMove, hor]

/-- Witness for the amended C9: a touch on the `documentElement` records
`lastY = 5` and a later move is prevented. -/
theorem touchStart_always_tracks_witness :
    (onTouchStart initTouch ⟨ElemId.docElement, 0, 800, 800⟩ 5).lastY = 5 ∧
    (onTouchMove
      (onTouchStart initTouch ⟨ElemId.docElement, 0, 800, 800⟩ 5) 9).2 =
      true := by
  constructor
  · exact (touchStart_always_tracks initTouch
      ⟨ElemId.docElement, 0, 800, 800⟩ 5).2.2.1
  · exact (touchStart_always_tracks initTouch
      ⟨ElemId.docElement, 0, 800, 800⟩ 5).2.2.2 (Or.inl rfl) 9

end PreventScroll

